import Mathlib

/-!
Shallow embedding of `src/log_analyzer.py` (the LogMatcher core of the
it-automation-toolkit repository) and verification of its specification.

Modelling conventions:
* A Python `datetime` at second resolution is the `DateTime` structure below;
  instants handed around as plain values (the `now` argument, cutoffs) are
  integers counting seconds on the proleptic Gregorian timeline, the image of
  `DateTime.toSecs`.  Python's `datetime` comparison is the chronological
  order, which `toSecs` realises exactly on valid dates, and
  `now - timedelta(hours=h)` is subtraction of `3600 * h` on that axis.
* The regex metacharacter `\d` is modelled as an ASCII decimal digit
  (`Char.isDigit`); all inputs of interest are ASCII.
* File I/O is modelled by an abstract `FileSystem` record: an existence bit
  for the `os.path.exists` check and an `Except` value describing what
  streaming the lines produced (any open/read/decode failure collapses to
  `Except.error`, mirroring the single `except Exception` handler in `main`).
-/

namespace LogAnalyzer

/-- A calendar date-time at second resolution, the shape produced by
`datetime.strptime(s, "%Y-%m-%dT%H:%M:%S")`. -/
structure DateTime where
  year : Nat
  month : Nat
  day : Nat
  hour : Nat
  minute : Nat
  second : Nat
deriving Repr, DecidableEq

/-- Gregorian leap-year rule, as used by Python's `datetime` module. -/
def isLeapYear (y : Nat) : Bool :=
  (y % 4 == 0 && y % 100 != 0) || y % 400 == 0

/-- Number of days in month `m` of year `y` (months are 1-based). -/
def daysInMonth (y m : Nat) : Nat :=
  if m == 2 then (if isLeapYear y then 29 else 28)
  else if m == 4 || m == 6 || m == 9 || m == 11 then 30
  else 31

/-- The validity condition enforced by `datetime.strptime` together with the
`datetime` constructor: year in `MINYEAR..MAXYEAR`, month `1..12`, day within
the month, hour `0..23`, minute and second `0..59`.  A six-tuple of two-digit
fields that fails any of these makes `strptime` raise `ValueError`. -/
def validDateTime (y m d h mi s : Nat) : Bool :=
  decide (1 ≤ y) && decide (y ≤ 9999) &&
  decide (1 ≤ m) && decide (m ≤ 12) &&
  decide (1 ≤ d) && decide (d ≤ daysInMonth y m) &&
  decide (h ≤ 23) && decide (mi ≤ 59) && decide (s ≤ 59)

/-- Numeric value of an ASCII digit character. -/
def digitVal (c : Char) : Nat := c.toNat - '0'.toNat

/-- Try the regex `\[(\d{4}-\d{2}-\d{2}T\d{2}:\d{2}:\d{2})\]` anchored at the
head of `cs`; on success return the six captured numeric fields
`(year, month, day, hour, minute, second)`. -/
def matchTimestampAt : List Char → Option (Nat × Nat × Nat × Nat × Nat × Nat)
  | '[' :: y1 :: y2 :: y3 :: y4 :: '-' :: m1 :: m2 :: '-' :: d1 :: d2 :: 'T' ::
      h1 :: h2 :: ':' :: n1 :: n2 :: ':' :: s1 :: s2 :: ']' :: _ =>
    if y1.isDigit && y2.isDigit && y3.isDigit && y4.isDigit &&
       m1.isDigit && m2.isDigit && d1.isDigit && d2.isDigit &&
       h1.isDigit && h2.isDigit && n1.isDigit && n2.isDigit &&
       s1.isDigit && s2.isDigit then
      some (1000 * digitVal y1 + 100 * digitVal y2 + 10 * digitVal y3 + digitVal y4,
            10 * digitVal m1 + digitVal m2,
            10 * digitVal d1 + digitVal d2,
            10 * digitVal h1 + digitVal h2,
            10 * digitVal n1 + digitVal n2,
            10 * digitVal s1 + digitVal s2)
    else none
  | _ => none

/-- `re.search` for the timestamp pattern: scan left to right and return the
fields of the first position where the whole pattern matches. -/
def findTimestamp : List Char → Option (Nat × Nat × Nat × Nat × Nat × Nat)
  | [] => none
  | c :: rest =>
    match matchTimestampAt (c :: rest) with
    | some r => some r
    | none => findTimestamp rest

/-- `parse_timestamp(line)` from `src/log_analyzer.py` lines 19-30: locate the
first bracketed `[YYYY-MM-DDTHH:MM:SS]` occurrence; return the parsed
`DateTime`, or `none` when the pattern is absent or `strptime` raises
`ValueError` (the `except ValueError: return None` branch). -/
def parse_timestamp (line : String) : Option DateTime :=
  match findTimestamp line.data with
  | none => none
  | some (y, m, d, h, mi, s) =>
    if validDateTime y m d h mi s then some ⟨y, m, d, h, mi, s⟩ else none

/-- Days on the proleptic Gregorian calendar strictly before 1 January of
year `y` (counting from year 1). -/
def daysBeforeYear (y : Nat) : Nat :=
  365 * (y - 1) + (y - 1) / 4 + (y - 1) / 400 - (y - 1) / 100

/-- Days of year `y` strictly before the first day of month `m`. -/
def daysBeforeMonth (y m : Nat) : Nat :=
  ((List.range (m - 1)).map (fun i => daysInMonth y (i + 1))).sum

/-- Seconds elapsed from 0001-01-01T00:00:00 to the given date-time: the
order-isomorphism between valid `DateTime`s and the integer time axis on
which Python compares `datetime` values and subtracts `timedelta`s. -/
def DateTime.toSecs (t : DateTime) : Nat :=
  ((daysBeforeYear t.year + daysBeforeMonth t.year t.month + (t.day - 1)) * 24
      + t.hour) * 3600
    + t.minute * 60 + t.second

/-- Python's substring test `needle in hay` on strings: true iff `needle`
occurs contiguously in `hay` (case-sensitive). -/
def hasSubstr (needle : List Char) : List Char → Bool
  | [] => needle.isPrefixOf []
  | c :: rest => needle.isPrefixOf (c :: rest) || hasSubstr needle rest

/-- `count_matches(filename, keyword, hours)` from `src/log_analyzer.py`
lines 32-52, with the file contents already streamed into `lines` and the
single `datetime.now()` sample passed in as `now` (seconds):
compute `cutoff_time = now - timedelta(hours=hours)` once when `hours` is
given, then fold over the lines incrementing the count per the nested
keyword / cutoff / timestamp tests of the source. -/
def count_matches (lines : List String) (keyword : String) (hours : Option Int)
    (now : Int) : Nat :=
  let cutoff_time : Option Int :=
    match hours with
    | some h => some (now - 3600 * h)
    | none => none
  lines.foldl
    (fun count line =>
      if hasSubstr keyword.data line.data then
        match cutoff_time with
        | none => count + 1
        | some c =>
          match parse_timestamp line with
          | some log_time => if (log_time.toSecs : Int) ≥ c then count + 1 else count
          | none => count
      else count)
    0

/-- `count_matches` with an explicit wall clock: `clock n` is what the `n`-th
call of `datetime.now()` during the invocation would return (seconds).  The
source calls `datetime.now()` exactly once, at line 39, before the file is
opened and before any line is read, so only `clock 0` is ever consulted. -/
def count_matches_clock (clock : Nat → Int) (lines : List String)
    (keyword : String) (hours : Option Int) : Nat :=
  count_matches lines keyword hours (clock 0)

/-- Per-line match decision of the loop body of `count_matches`, with the
already-computed optional cutoff: keyword containment, then (when a cutoff is
configured) successful timestamp extraction and inclusive comparison. -/
def countsLine (keyword : String) (cutoff : Option Int) (line : String) : Bool :=
  hasSubstr keyword.data line.data &&
    match cutoff with
    | none => true
    | some c =>
      match parse_timestamp line with
      | some t => decide ((t.toSecs : Int) ≥ c)
      | none => false

/-- Abstract view of the filesystem as `main` observes it: the result of the
`os.path.exists` check, and what iterating the opened file yields — either
the full list of lines or an exception message (open failure, permission,
disappearance mid-read, decode error). -/
structure FileSystem where
  pathExists : Bool
  readLines : Except String (List String)

/-- The `try` body of `main` (line 66): open and stream the file inside
`count_matches`; any exception during open or read propagates and discards
the local partial count. -/
def count_matches_io (readResult : Except String (List String))
    (keyword : String) (hours : Option Int) (now : Int) : Except String Nat :=
  match readResult with
  | Except.error e => Except.error e
  | Except.ok lines => Except.ok (count_matches lines keyword hours now)

/-- `main()` from `src/log_analyzer.py` lines 54-78, abstracted over the
filesystem: `Except.error code` is `sys.exit(code)` with no count reported;
`Except.ok count` is the successful path that prints the count and lets the
process end with status 0. -/
def main_run (fs : FileSystem) (keyword : String) (hours : Option Int)
    (now : Int) : Except Nat Nat :=
  if fs.pathExists then
    match count_matches_io fs.readLines keyword hours now with
    | Except.error _ => Except.error 1
    | Except.ok count => Except.ok count
  else Except.error 1

/-- Two invocations of the counting operation with identical arguments and
the same clock, as a pair (first run, second run). -/
def run_twice (clock : Nat → Int) (lines : List String) (keyword : String)
    (hours : Option Int) : Nat × Nat :=
  (count_matches_clock clock lines keyword hours,
   count_matches_clock clock lines keyword hours)

/-- Spec-side match predicate, following the wording of the specification:
the keyword occurs in the line as a contiguous case-sensitive substring, and
either no cutoff is configured, or a timestamp was successfully extracted and
is greater than or equal to the cutoff `now - N` hours. -/
def SpecCounts (keyword : String) (hours : Option Int) (now : Int)
    (line : String) : Prop :=
  keyword.data <:+: line.data ∧
    (hours = none ∨
      ∃ h t, hours = some h ∧ parse_timestamp line = some t ∧
        (t.toSecs : Int) ≥ now - 3600 * h)

/-! ### Helper lemmas -/

theorem hasSubstr_iff_occurs (n : List Char) :
    ∀ h : List Char, hasSubstr n h = true ↔ n <:+: h
  | [] => by
    simp [hasSubstr, List.isPrefixOf_iff_prefix]
  | c :: rest => by
    simp only [hasSubstr, Bool.or_eq_true, List.isPrefixOf_iff_prefix,
      hasSubstr_iff_occurs n rest, List.infix_cons_iff]

theorem foldl_if_count (p : String → Bool) :
    ∀ (lines : List String) (n : Nat),
      lines.foldl (fun c l => if p l then c + 1 else c) n = n + lines.countP p
  | [], n => by simp
  | l :: ls, n => by
    by_cases h : p l
    · simp only [List.foldl_cons, h, if_true, foldl_if_count p ls,
        List.countP_cons, h]
      omega
    · simp only [List.foldl_cons, h, if_false, foldl_if_count p ls,
        List.countP_cons]
      simp [h]

theorem count_matches_body_eq (kw : String) (cutoff : Option Int)
    (count : Nat) (line : String) :
    (if hasSubstr kw.data line.data then
       match cutoff with
       | none => count + 1
       | some c =>
         match parse_timestamp line with
         | some t => if (t.toSecs : Int) ≥ c then count + 1 else count
         | none => count
     else count)
    = if countsLine kw cutoff line then count + 1 else count := by
  unfold countsLine
  cases hs : hasSubstr kw.data line.data
  · simp [hs]
  · cases cutoff with
    | none => simp [hs]
    | some c =>
      cases hp : parse_timestamp line with
      | none => simp [hs, hp]
      | some t => by_cases hc : (t.toSecs : Int) ≥ c <;> simp [hs, hp, hc]

theorem count_matches_eq_countP (lines : List String) (kw : String)
    (hours : Option Int) (now : Int) :
    count_matches lines kw hours now
      = lines.countP (countsLine kw (hours.map (fun h => now - 3600 * h))) := by
  unfold count_matches
  cases hours with
  | none =>
    have hb : (fun (count : Nat) (line : String) =>
        if hasSubstr kw.data line.data then count + 1 else count)
      = (fun count line =>
          if countsLine kw (Option.map (fun h => now - 3600 * h) none) line
          then count + 1 else count) := by
      funext count line
      simpa using count_matches_body_eq kw none count line
    simp only [hb]
    simpa using foldl_if_count _ lines 0
  | some h =>
    have hb : (fun (count : Nat) (line : String) =>
        if hasSubstr kw.data line.data then
          match parse_timestamp line with
          | some t => if (t.toSecs : Int) ≥ now - 3600 * h then count + 1 else count
          | none => count
        else count)
      = (fun count line =>
          if countsLine kw (Option.map (fun h => now - 3600 * h) (some h)) line
          then count + 1 else count) := by
      funext count line
      simpa using count_matches_body_eq kw (some (now - 3600 * h)) count line
    simp only [hb]
    simpa using foldl_if_count _ lines 0

theorem countsLine_iff_SpecCounts (kw : String) (hours : Option Int)
    (now : Int) (line : String) :
    countsLine kw (hours.map (fun h => now - 3600 * h)) line = true
      ↔ SpecCounts kw hours now line := by
  unfold countsLine SpecCounts
  cases hours with
  | none =>
    simp [hasSubstr_iff_occurs]
  | some h =>
    cases hp : parse_timestamp line with
    | none => simp [hasSubstr_iff_occurs, hp]
    | some t => simp [hasSubstr_iff_occurs, hp, ge_iff_le]

theorem countsLine_false_of_parse_none (kw : String) (c : Int) (line : String)
    (hparse : parse_timestamp line = none) :
    countsLine kw (some c) line = false := by
  unfold countsLine
  simp [hparse]

theorem countP_singleton (p : String → Bool) (line : String) :
    List.countP p [line] = if p line then 1 else 0 := by
  simp [List.countP_cons]

/-! ### Claims -/

/-- C1: a line is counted by `count_matches` if and only if the keyword
occurs in it as a contiguous case-sensitive substring and either no cutoff is
configured, or a timestamp was successfully extracted and is greater than or
equal to the cutoff; the aggregate count is the number of such lines in the
input in delivered order. -/
theorem C1_count_is_number_of_spec_matching_lines (lines : List String)
    (keyword : String) (hours : Option Int) (now : Int) :
    count_matches lines keyword hours now
      = lines.countP (countsLine keyword (hours.map (fun h => now - 3600 * h)))
    ∧ ∀ line, countsLine keyword (hours.map (fun h => now - 3600 * h)) line = true
        ↔ SpecCounts keyword hours now line :=
  ⟨count_matches_eq_countP lines keyword hours now,
   fun line => countsLine_iff_SpecCounts keyword hours now line⟩

/-- C2: a line whose timestamp is missing or unparsable is excluded from a
windowed count even when the keyword matches, and the parse failure never
aborts or affects the counting of the remaining lines. -/
theorem C2_unparsable_timestamp_silently_excluded (pre post : List String)
    (line keyword : String) (h now : Int)
    (hparse : parse_timestamp line = none) :
    count_matches (pre ++ line :: post) keyword (some h) now
      = count_matches (pre ++ post) keyword (some h) now
    ∧ count_matches [line] keyword (some h) now = 0 := by
  have hfalse := countsLine_false_of_parse_none keyword (now - 3600 * h) line hparse
  constructor
  · rw [count_matches_eq_countP, count_matches_eq_countP]
    simp [List.countP_cons, hfalse]
  · rw [count_matches_eq_countP]
    simp [countP_singleton, hfalse]

theorem C2_witness :
    count_matches (["x ERROR"] ++ "no timestamp here ERROR" :: ["y"])
        "ERROR" (some 1) 0
      = count_matches (["x ERROR"] ++ ["y"]) "ERROR" (some 1) 0
    ∧ count_matches ["no timestamp here ERROR"] "ERROR" (some 1) 0 = 0 :=
  C2_unparsable_timestamp_silently_excluded ["x ERROR"] ["y"]
    "no timestamp here ERROR" "ERROR" 1 0 (by decide)

/-- C3: under a windowed query, a keyword-matching line whose extracted
timestamp equals the cutoff exactly is counted (inclusive lower bound), and
one whose timestamp is strictly before the cutoff is never counted. -/
theorem C3_cutoff_is_inclusive_lower_bound (line keyword : String)
    (h now : Int) (t : DateTime)
    (hkw : hasSubstr keyword.data line.data = true)
    (hparse : parse_timestamp line = some t) :
    ((t.toSecs : Int) = now - 3600 * h →
      count_matches [line] keyword (some h) now = 1)
    ∧ ((t.toSecs : Int) < now - 3600 * h →
      count_matches [line] keyword (some h) now = 0) := by
  constructor
  · intro heq
    rw [count_matches_eq_countP, countP_singleton]
    unfold countsLine
    simp [Option.map, hkw, hparse, heq]
  · intro hlt
    rw [count_matches_eq_countP, countP_singleton]
    unfold countsLine
    have : ¬ ((t.toSecs : Int) ≥ now - 3600 * h) := by omega
    simp [Option.map, hkw, hparse, this]

theorem C3_witness :
    count_matches ["[2025-11-22T09:30:00] ERROR"] "ERROR" (some 1)
        (DateTime.toSecs ⟨2025, 11, 22, 10, 30, 0⟩) = 1
    ∧ count_matches ["[2025-11-22T09:29:59] ERROR"] "ERROR" (some 1)
        (DateTime.toSecs ⟨2025, 11, 22, 10, 30, 0⟩) = 0 :=
  ⟨(C3_cutoff_is_inclusive_lower_bound "[2025-11-22T09:30:00] ERROR" "ERROR" 1
      (DateTime.toSecs ⟨2025, 11, 22, 10, 30, 0⟩) ⟨2025, 11, 22, 9, 30, 0⟩
      (by decide) (by decide)).1 (by decide),
   (C3_cutoff_is_inclusive_lower_bound "[2025-11-22T09:29:59] ERROR" "ERROR" 1
      (DateTime.toSecs ⟨2025, 11, 22, 10, 30, 0⟩) ⟨2025, 11, 22, 9, 29, 59⟩
      (by decide) (by decide)).2 (by decide)⟩

theorem findTimestamp_of_first (f : Nat × Nat × Nat × Nat × Nat × Nat) :
    ∀ (i : Nat) (cs : List Char),
      (∀ j, j < i → matchTimestampAt (cs.drop j) = none) →
      matchTimestampAt (cs.drop i) = some f →
      findTimestamp cs = some f
  | 0, [], _, hm => by simp [matchTimestampAt] at hm
  | 0, c :: rest, _, hm => by
    rw [List.drop_zero] at hm
    unfold findTimestamp
    rw [hm]
  | i + 1, [], _, hm => by simp [matchTimestampAt] at hm
  | i + 1, c :: rest, hnone, hm => by
    have h0 : matchTimestampAt (c :: rest) = none := by
      have h1 := hnone 0 (Nat.succ_pos i)
      simpa using h1
    unfold findTimestamp
    rw [h0]
    apply findTimestamp_of_first f i rest
    · intro j hj
      have h2 := hnone (j + 1) (Nat.succ_lt_succ hj)
      rw [List.drop_succ_cons] at h2
      exact h2
    · rw [List.drop_succ_cons] at hm
      exact hm

theorem hasSubstr_nil_left (l : List Char) : hasSubstr [] l = true := by
  cases l <;> simp [hasSubstr]

/-- C4: `parse_timestamp` considers only the first occurrence of the
bracketed pattern in the line; absence of the pattern gives "no timestamp",
and a present but calendar-invalid first occurrence also gives
"no timestamp" — the rest of the line is never scanned for a later (possibly
valid) timestamp, so the result is determined by that first occurrence
alone. -/
theorem C4_only_first_pattern_occurrence_considered (line : String) :
    (findTimestamp line.data = none → parse_timestamp line = none)
    ∧ ∀ (i y m d h mi s : Nat),
        (∀ j, j < i → matchTimestampAt (line.data.drop j) = none) →
        matchTimestampAt (line.data.drop i) = some (y, m, d, h, mi, s) →
        parse_timestamp line =
          (if validDateTime y m d h mi s then some ⟨y, m, d, h, mi, s⟩
           else none) := by
  constructor
  · intro hnone
    unfold parse_timestamp
    rw [hnone]
  · intro i y m d h mi s hpre hm
    unfold parse_timestamp
    rw [findTimestamp_of_first _ i line.data hpre hm]

theorem C4_witness :
    parse_timestamp "[2025-13-99T99:99:99] ERROR [2025-11-22T10:00:00]" = none
    ∧ matchTimestampAt
        ((String.data "[2025-13-99T99:99:99] ERROR [2025-11-22T10:00:00]").drop 28)
        = some (2025, 11, 22, 10, 0, 0) := by
  constructor
  · have h := (C4_only_first_pattern_occurrence_considered
      "[2025-13-99T99:99:99] ERROR [2025-11-22T10:00:00]").2 0 2025 13 99 99 99 99
      (fun j hj => absurd hj (Nat.not_lt_zero j)) (by decide)
    have hv : validDateTime 2025 13 99 99 99 99 = false := by decide
    rw [h, hv]
    simp
  · decide

/-- C5: with a window of `N` hours the cutoff is `now - N` hours where `now`
is the single wall-clock sample taken at the start of the invocation
(`clock 0`), every line is compared against that same cutoff value, and the
result does not depend on any later clock reading. -/
theorem C5_cutoff_computed_once_from_initial_clock (clock : Nat → Int)
    (lines : List String) (keyword : String) (h : Int) :
    count_matches_clock clock lines keyword (some h)
      = lines.countP (countsLine keyword (some (clock 0 - 3600 * h)))
    ∧ ∀ clock2 : Nat → Int, clock2 0 = clock 0 →
        count_matches_clock clock2 lines keyword (some h)
          = count_matches_clock clock lines keyword (some h) := by
  constructor
  · unfold count_matches_clock
    rw [count_matches_eq_countP]
    rfl
  · intro clock2 h2
    unfold count_matches_clock
    rw [h2]

theorem C5_witness :
    count_matches_clock (fun n => if n = 0 then 100 else 999)
        ["[2025-11-22T10:00:00] ERROR"] "ERROR" (some 1)
      = count_matches_clock (fun _ => 100)
        ["[2025-11-22T10:00:00] ERROR"] "ERROR" (some 1) :=
  (C5_cutoff_computed_once_from_initial_clock (fun _ => 100)
      ["[2025-11-22T10:00:00] ERROR"] "ERROR" 1).2
    (fun n => if n = 0 then 100 else 999) (by simp)

/-- C6: if the path-existence check fails or streaming the input fails, the
invocation exits with a non-zero status and reports no count (any partial
count is discarded); on successful analysis it exits 0 and reports the count
of `count_matches`, whatever the lines are — malformed lines never cause
failure. -/
theorem C6_io_errors_fatal_success_exits_zero (fs : FileSystem)
    (keyword : String) (hours : Option Int) (now : Int) :
    (fs.pathExists = false →
      ∃ code, main_run fs keyword hours now = Except.error code ∧ code ≠ 0)
    ∧ (∀ e, fs.readLines = Except.error e →
      ∃ code, main_run fs keyword hours now = Except.error code ∧ code ≠ 0)
    ∧ (∀ lines, fs.pathExists = true → fs.readLines = Except.ok lines →
      main_run fs keyword hours now
        = Except.ok (count_matches lines keyword hours now)) := by
  refine ⟨?_, ?_, ?_⟩
  · intro hp
    refine ⟨1, ?_, one_ne_zero⟩
    unfold main_run
    rw [hp]
    simp
  · intro e he
    refine ⟨1, ?_, one_ne_zero⟩
    unfold main_run count_matches_io
    rw [he]
    cases hp : fs.pathExists <;> simp
  · intro lines hp hl
    unfold main_run count_matches_io
    rw [hp, hl]
    simp

theorem C6_witness :
    (∃ code, main_run ⟨false, Except.ok []⟩ "ERROR" none 0
        = Except.error code ∧ code ≠ 0)
    ∧ (∃ code, main_run ⟨true, Except.error "file disappeared"⟩ "ERROR" none 0
        = Except.error code ∧ code ≠ 0)
    ∧ main_run ⟨true, Except.ok ["x ERROR", "[bad-ts] y"]⟩ "ERROR" none 0
        = Except.ok (count_matches ["x ERROR", "[bad-ts] y"] "ERROR" none 0) :=
  ⟨(C6_io_errors_fatal_success_exits_zero ⟨false, Except.ok []⟩
      "ERROR" none 0).1 rfl,
   (C6_io_errors_fatal_success_exits_zero ⟨true, Except.error "file disappeared"⟩
      "ERROR" none 0).2.1 "file disappeared" rfl,
   (C6_io_errors_fatal_success_exits_zero ⟨true, Except.ok ["x ERROR", "[bad-ts] y"]⟩
      "ERROR" none 0).2.2 ["x ERROR", "[bad-ts] y"] rfl rfl⟩

/-- C7: on the three scenario lines with keyword "ERROR" the count is 3 with
no window; with a 1-hour window and now = 2025-11-22T10:30:00 the count is 1
(only the 10:00:00 line); and the single malformed line
`[2025-13-99T99:99:99] ERROR` counts 0 under any configured window. -/
theorem C7_scenario_counts :
    (∀ now : Int, count_matches
        ["[2025-11-22T10:00:00] ERROR: disk full",
         "[2025-11-22T09:00:00] ERROR: disk full",
         "no timestamp here ERROR"] "ERROR" none now = 3)
    ∧ count_matches
        ["[2025-11-22T10:00:00] ERROR: disk full",
         "[2025-11-22T09:00:00] ERROR: disk full",
         "no timestamp here ERROR"] "ERROR" (some 1)
        (DateTime.toSecs ⟨2025, 11, 22, 10, 30, 0⟩) = 1
    ∧ ∀ h now : Int, count_matches ["[2025-13-99T99:99:99] ERROR"] "ERROR"
        (some h) now = 0 := by
  refine ⟨fun now => rfl, by decide, ?_⟩
  intro h now
  rw [count_matches_eq_countP, countP_singleton]
  have hf := countsLine_false_of_parse_none "ERROR" (now - 3600 * h)
    "[2025-13-99T99:99:99] ERROR" (by decide)
  simp [Option.map, hf]

/-- C8: the aggregate counting operation is deterministic — two runs over the
same lines with the same keyword, window and clock return the same count. -/
theorem C8_two_runs_same_count (clock : Nat → Int) (lines : List String)
    (keyword : String) (hours : Option Int) :
    (run_twice clock lines keyword hours).1
      = (run_twice clock lines keyword hours).2 := rfl

/-- C9: for any input, keyword and fixed now, the windowed count never
exceeds the unwindowed count, and the unwindowed count never exceeds the
number of input lines. -/
theorem C9_window_only_shrinks_count (lines : List String) (keyword : String)
    (h now : Int) :
    count_matches lines keyword (some h) now
        ≤ count_matches lines keyword none now
    ∧ count_matches lines keyword none now ≤ lines.length := by
  rw [count_matches_eq_countP, count_matches_eq_countP]
  constructor
  · apply List.countP_mono_left
    intro line _ hc
    unfold countsLine at hc ⊢
    simp only [Option.map] at hc ⊢
    rw [Bool.and_eq_true] at hc
    simp [hc.1]
  · exact List.countP_le_length _

/-- C10: the non-empty-keyword precondition is never enforced: the empty
keyword is a substring of every line, so with no window `count_matches`
returns the total number of lines, and `main` happily reports that total. -/
theorem C10_empty_keyword_counts_all_lines (lines : List String) (now : Int) :
    count_matches lines "" none now = lines.length
    ∧ (∀ line : String, hasSubstr "".data line.data = true)
    ∧ ∀ (fs : FileSystem) (ls : List String), fs.pathExists = true →
        fs.readLines = Except.ok ls →
        main_run fs "" none now = Except.ok ls.length := by
  have hcount : ∀ ls : List String, count_matches ls "" none now = ls.length := by
    intro ls
    rw [count_matches_eq_countP]
    rw [List.countP_eq_length]
    intro line _
    unfold countsLine
    simp [Option.map, hasSubstr_nil_left]
  refine ⟨hcount lines, ?_, ?_⟩
  · intro line
    exact hasSubstr_nil_left _
  · intro fs ls hp hl
    unfold main_run count_matches_io
    rw [hp, hl]
    simp [hcount ls]

theorem C10_witness :
    count_matches ["a", "[bad] b"] "" none 0 = 2
    ∧ main_run ⟨true, Except.ok ["a", "[bad] b"]⟩ "" none 0 = Except.ok 2 :=
  ⟨(C10_empty_keyword_counts_all_lines ["a", "[bad] b"] 0).1,
   (C10_empty_keyword_counts_all_lines ["a", "[bad] b"] 0).2.2
     ⟨true, Except.ok ["a", "[bad] b"]⟩ ["a", "[bad] b"] rfl rfl⟩

end LogAnalyzer
